import Mathlib

/-!
Shallow embedding of `src/controllers/bookinstanceController.js`, the request
handlers for the book-instance entity of the local-library application.

Each Express handler becomes a pure Lean function.  Asynchronous storage
calls become explicit parameters: the record store is an explicit `Db`
value, and every `exec`/`save`/`remove`/`findByIdAndUpdate` callback that can
receive an infrastructure fault takes an `Option StorageFault` argument
(`some f` meaning the storage layer reported fault `f`, `none` meaning the
call succeeded).  A handler returns the list of response actions it performs
(render, redirect, pass an error to the `next` continuation, or raise an
uncaught exception) together with the store as left after the request.
-/

/-- An abstract infrastructure fault reported by the storage layer. -/
abbrev StorageFault := Nat

/-- An error value passed to the `next` error-handling continuation: either a
storage fault forwarded as-is, or an `Error` constructed by the handler with a
message and an optional HTTP status. -/
inductive JsError where
  | storage (code : StorageFault)
  | httpError (msg : String) (status : Option Nat)
deriving DecidableEq, Repr

/-- A calendar date as produced by the `toDate` sanitizer. -/
structure CalDate where
  year : Nat
  month : Nat
  day : Nat
deriving DecidableEq, Repr

/-- Decides whether a character is an ASCII decimal digit. -/
def isDigitChar (c : Char) : Bool :=
  48 ≤ c.toNat && c.toNat ≤ 57

/-- Reads a run of decimal digit characters as a natural number. -/
def digitsToNat (cs : List Char) : Nat :=
  cs.foldl (fun acc c => acc * 10 + (c.toNat - 48)) 0

/-- Modelled from the spec: the date validator of the validator library (the
library is not part of this repository) accepts a present due-back value
exactly when it is a well-formed ISO-8601 calendar date, modelled here as
`YYYY-MM-DD` with four digit year, a month between 1 and 12 and a day between
1 and 31. -/
def isISO8601CalendarDate (s : String) : Bool :=
  match s.data with
  | [y1, y2, y3, y4, c1, m1, m2, c2, d1, d2] =>
    isDigitChar y1 && isDigitChar y2 && isDigitChar y3 && isDigitChar y4 &&
    c1 == Char.ofNat 45 && c2 == Char.ofNat 45 &&
    isDigitChar m1 && isDigitChar m2 && isDigitChar d1 && isDigitChar d2 &&
    1 ≤ digitsToNat [m1, m2] && digitsToNat [m1, m2] ≤ 12 &&
    1 ≤ digitsToNat [d1, d2] && digitsToNat [d1, d2] ≤ 31
  | _ => false

/-- Modelled from the spec: the `toDate` sanitizer converts the submitted text
to a date value, and to a null value (here `none`) when the text is not a
well-formed date (an absent or empty submission is also converted to null). -/
def toDate (s : String) : Option CalDate :=
  if isISO8601CalendarDate s then
    match s.data with
    | [y1, y2, y3, y4, _, m1, m2, _, d1, d2] =>
      some { year := digitsToNat [y1, y2, y3, y4],
             month := digitsToNat [m1, m2],
             day := digitsToNat [d1, d2] }
    | _ => none
  else none

/-- Modelled from the spec: the `escape` sanitizer of the validator library
replaces HTML-significant characters by character entities. -/
def escapeChar (c : Char) : String :=
  if c == Char.ofNat 38 then "&amp;"
  else if c == Char.ofNat 34 then "&quot;"
  else if c == Char.ofNat 39 then "&#x27;"
  else if c == Char.ofNat 60 then "&lt;"
  else if c == Char.ofNat 62 then "&gt;"
  else if c == Char.ofNat 47 then "&#x2F;"
  else if c == Char.ofNat 92 then "&#x5C;"
  else if c == Char.ofNat 96 then "&#96;"
  else String.singleton c

/-- Escapes every character of a string (the `escape` sanitizer). -/
def escapeHtml (s : String) : String :=
  String.join (s.data.map escapeChar)

/-- The `trim().escape()` sanitizer chain applied to the text fields. -/
def sanitizeText (s : String) : String :=
  escapeHtml s.trim

/-- The form-encoded request body for the create and update submissions.  A
field the client omitted is the empty string (both an absent and an empty
field are falsy, which is what `optional` with `checkFalsy` tests). -/
structure RawBody where
  book : String
  imprint : String
  status : String
  due_back : String
deriving DecidableEq, Repr

/-- Message of the `book` field validator. -/
def msgBookRequired : String := "Book must be specified"

/-- Message of the `imprint` field validator. -/
def msgImprintRequired : String := "Imprint must be specified"

/-- Message of the `due_back` field validator. -/
def msgInvalidDate : String := "Invalid date"

/-- The validation chains of the create and update submissions, in source
order: `book` and `imprint` must have length at least 1 (the length check runs
before the trailing trim sanitizer, so it sees the raw value), and `due_back`
is optional with `checkFalsy` (a falsy value skips the check) and must
otherwise be an ISO-8601 date.  The result models `validationResult(req)` as
the list of error messages. -/
def validationErrors (b : RawBody) : List String :=
  (if 1 ≤ b.book.length then [] else [msgBookRequired]) ++
  (if 1 ≤ b.imprint.length then [] else [msgImprintRequired]) ++
  (if b.due_back = "" then []
   else if isISO8601CalendarDate b.due_back then [] else [msgInvalidDate])

/-- A book record, as far as this controller observes it (identity and
title). -/
structure Book where
  _id : String
  title : String
deriving DecidableEq, Repr

/-- A book-instance record: identity, reference to a book, imprint, status and
an optional due-back date. -/
structure BookInstance where
  _id : String
  book : String
  imprint : String
  status : String
  due_back : Option CalDate
deriving DecidableEq, Repr

/-- Modelled from the spec: the detail location of a book instance is derived
from its identity (the models directory defining the `url` virtual is not
among these sources). -/
def instanceUrlOf (id : String) : String :=
  "/catalog/bookinstance/" ++ id

/-- The `url` virtual of a book-instance record. -/
def BookInstance.url (bi : BookInstance) : String :=
  instanceUrlOf bi._id

/-- Modelled from the spec: the detail location of a book is derived from its
identity. -/
def bookUrlOf (id : String) : String :=
  "/catalog/book/" ++ id

/-- The `url` virtual of a book record. -/
def Book.url (b : Book) : String :=
  bookUrlOf b._id

/-- The record store as this controller observes it: the book-instance
collection and the book collection. -/
structure Db where
  bookinstances : List BookInstance
  books : List Book
deriving DecidableEq, Repr

/-- `BookInstance.findById`: the first stored record with the given
identity, or none. -/
def findById (db : Db) (id : String) : Option BookInstance :=
  db.bookinstances.find? (fun bi => bi._id == id)

/-- Resolution of a book reference (`populate`): the first stored book with
the given identity, or none. -/
def bookById (db : Db) (id : String) : Option Book :=
  db.books.find? (fun b => b._id == id)

/-- Insertion into a list of books kept in ascending title order. -/
def insertByTitle (b : Book) : List Book → List Book
  | [] => [b]
  | c :: cs => if b.title ≤ c.title then b :: c :: cs else c :: insertByTitle b cs

/-- `Book.find({}, title).sort(title ascending)`: every stored book, sorted by
title. -/
def findBooksByTitleAsc (db : Db) : List Book :=
  db.books.foldr insertByTitle []

/-- Removal of the first record carrying a given identity (the `remove`
method of a fetched document). -/
def removeById (l : List BookInstance) (id : String) : List BookInstance :=
  match l with
  | [] => []
  | bi :: rest => if bi._id == id then rest else bi :: removeById rest id

/-- `findByIdAndUpdate`: the stored record carrying the given identity is
replaced by the supplied record (identities are unique in the store, so the
pointwise replacement touches exactly the matching document). -/
def replaceById (l : List BookInstance) (id : String) (r : BookInstance) : List BookInstance :=
  l.map (fun bi => if bi._id == id then r else bi)

/-- The data payload handed to a view render, with the optional parts
defaulted as Express leaves absent locals undefined. -/
structure RenderPayload where
  title : String
  book_list : List Book := []
  errors : List String := []
  bookinstance : Option BookInstance := none
  bookinstance_list : List (BookInstance × Option Book) := []
deriving DecidableEq, Repr

/-- A response action performed by a handler: a view render, a redirect, a
call of the `next` error continuation, or an uncaught exception. -/
inductive ResAction where
  | render (view : String) (payload : RenderPayload)
  | redirect (location : String)
  | nextErr (e : JsError)
  | crash (msg : String)
deriving DecidableEq, Repr

/-- View name of the list page. -/
def viewList : String := "bookinstance_list"

/-- View name of the detail page. -/
def viewDetail : String := "bookinstance_detail"

/-- View name of the create and update form. -/
def viewForm : String := "bookinstance_form"

/-- View name of the delete confirmation page. -/
def viewDelete : String := "bookinstance_delete"

/-- Title of the list page. -/
def titleList : String := "Book Instance List"

/-- Title of the detail page. -/
def titleDetail : String := "Book"

/-- Title of the create form (also used, verbatim from the source, by the
error re-render of the update submission). -/
def titleCreate : String := "Create BookInstance"

/-- Title of the update form. -/
def titleUpdate : String := "Update BookInstance"

/-- Title of the delete confirmation page. -/
def titleDelete : String := "Delete Book Copy"

/-- Message of the 404 error constructed for a missing record. -/
def msgNotFound : String := "Book copy not found"

/-- The not-found error built by the detail and update-form handlers. -/
def notFoundError : JsError :=
  JsError.httpError msgNotFound (some 404)

/-- Location of the general book list, target of the delete-form redirect for
an absent record. -/
def locBookList : String := "/catalog/books"

/-- The exception raised when the list handler calls `next`: the handler is
declared `function (req, res)` without a third parameter, so the identifier
`next` is not in scope and the call raises a ReferenceError. -/
def msgNextUndefined : String := "ReferenceError: next is not defined"

/-- The exception raised when `remove` is called on a null lookup result. -/
def msgRemoveOnNull : String := "TypeError: bookInstance is null, cannot call remove"

/-- The exception raised when `url` is read from a null value. -/
def msgUrlOnNull : String := "TypeError: cannot read url of null"

/-- `bookinstance_list`: fetch all records with their book resolved and
render the list view.  Faithful to the source, the handler signature omits
the `next` parameter, so the fault branch raises a ReferenceError instead of
invoking the error continuation. -/
def bookinstance_list (db : Db) (fault : Option StorageFault) : List ResAction :=
  match fault with
  | some _ => [ResAction.crash msgNextUndefined]
  | none =>
    [ResAction.render viewList
      { title := titleList,
        bookinstance_list := db.bookinstances.map (fun bi => (bi, bookById db bi.book)) }]

/-- `bookinstance_detail`: fetch one record by the path identity; a fault is
forwarded to `next`, an absent record produces a 404 error passed to `next`,
and otherwise the detail view is rendered. -/
def bookinstance_detail (db : Db) (id : String) (fault : Option StorageFault) :
    List ResAction :=
  match fault with
  | some f => [ResAction.nextErr (JsError.storage f)]
  | none =>
    match findById db id with
    | none => [ResAction.nextErr notFoundError]
    | some bi =>
      [ResAction.render viewDetail { title := titleDetail, bookinstance := some bi }]

/-- `bookinstance_create_get`: fetch the books sorted by title and render the
empty form. -/
def bookinstance_create_get (db : Db) (fault : Option StorageFault) : List ResAction :=
  match fault with
  | some f => [ResAction.nextErr (JsError.storage f)]
  | none =>
    [ResAction.render viewForm { title := titleCreate, book_list := findBooksByTitleAsc db }]

/-- The in-memory record both submission handlers build from the sanitized
body fields (`new BookInstance`), with the given identity. -/
def mkBookInstance (id : String) (b : RawBody) : BookInstance :=
  { _id := id,
    book := sanitizeText b.book,
    imprint := sanitizeText b.imprint,
    status := sanitizeText b.status,
    due_back := toDate b.due_back }

/-- `bookinstance_create_post`: run the validators; on failure re-fetch the
book list (fault forwarded to `next`) and re-render the form with the errors
and the built record; on success save the new record (`freshId` is the
identity minted at construction; a save fault is forwarded to `next`) and
redirect to the new record's location. -/
def bookinstance_create_post (db : Db) (b : RawBody) (freshId : String)
    (findFault : Option StorageFault) (saveFault : Option StorageFault) :
    List ResAction × Db :=
  let errors := validationErrors b
  let bookinstance := mkBookInstance freshId b
  if !errors.isEmpty then
    match findFault with
    | some f => ([ResAction.nextErr (JsError.storage f)], db)
    | none =>
      ([ResAction.render viewForm
          { title := titleCreate,
            book_list := findBooksByTitleAsc db,
            errors := errors,
            bookinstance := some bookinstance }], db)
  else
    match saveFault with
    | some f => ([ResAction.nextErr (JsError.storage f)], db)
    | none =>
      ([ResAction.redirect bookinstance.url],
       { db with bookinstances := db.bookinstances ++ [bookinstance] })

/-- `bookinstance_delete_get`: fetch one record; faithful to the source, when
the record is absent the redirect to the book list is issued without a
`return`, so the confirmation render below it still executes (with the null
record); when present only the confirmation render happens. -/
def bookinstance_delete_get (db : Db) (id : String) (fault : Option StorageFault) :
    List ResAction :=
  match fault with
  | some f => [ResAction.nextErr (JsError.storage f)]
  | none =>
    match findById db id with
    | none =>
      [ResAction.redirect locBookList,
       ResAction.render viewDelete { title := titleDelete, bookinstance := none }]
    | some bi =>
      [ResAction.render viewDelete { title := titleDelete, bookinstance := some bi }]

/-- `bookinstance_delete_post`: fetch the record named by the posted
`bookinstanceid`; faithful to the source there is no null check, so an absent
record reaches `bookInstance.remove` on null and raises a TypeError; when
present the record is removed (a fault is forwarded to `next`) and the
response redirects to the related book's location (reading `book.url` off the
populated reference, which is null when the reference dangles). -/
def bookinstance_delete_post (db : Db) (bookinstanceid : String)
    (findFault : Option StorageFault) (removeFault : Option StorageFault) :
    List ResAction × Db :=
  match findFault with
  | some f => ([ResAction.nextErr (JsError.storage f)], db)
  | none =>
    match findById db bookinstanceid with
    | none => ([ResAction.crash msgRemoveOnNull], db)
    | some bi =>
      match removeFault with
      | some f => ([ResAction.nextErr (JsError.storage f)], db)
      | none =>
        match bookById db bi.book with
        | none =>
          ([ResAction.crash msgUrlOnNull],
           { db with bookinstances := removeById db.bookinstances bi._id })
        | some bk =>
          ([ResAction.redirect bk.url],
           { db with bookinstances := removeById db.bookinstances bi._id })

/-- `bookinstance_update_get`: fetch the target record and the book list in
parallel with first-error-wins semantics; a fault is forwarded to `next`, an
absent record produces a 404 error passed to `next`, and otherwise the form
is rendered pre-populated. -/
def bookinstance_update_get (db : Db) (id : String)
    (instFault : Option StorageFault) (bookFault : Option StorageFault) :
    List ResAction :=
  match instFault <|> bookFault with
  | some f => [ResAction.nextErr (JsError.storage f)]
  | none =>
    match findById db id with
    | none => [ResAction.nextErr notFoundError]
    | some bi =>
      [ResAction.render viewForm
        { title := titleUpdate,
          book_list := findBooksByTitleAsc db,
          bookinstance := some bi }]

/-- `bookinstance_update_post`: run the same validators as create; the built
record explicitly carries the path identity (`_id: req.params.id`).  On
failure the form is re-rendered (with, verbatim from the source, the create
title); on success `findByIdAndUpdate` replaces the stored record and the
response redirects to the url of the returned document (null when no record
carries the identity, in which case reading `url` raises a TypeError). -/
def bookinstance_update_post (db : Db) (b : RawBody) (paramsId : String)
    (findFault : Option StorageFault) (updateFault : Option StorageFault) :
    List ResAction × Db :=
  let errors := validationErrors b
  let bookinstance := mkBookInstance paramsId b
  if !errors.isEmpty then
    match findFault with
    | some f => ([ResAction.nextErr (JsError.storage f)], db)
    | none =>
      ([ResAction.render viewForm
          { title := titleCreate,
            book_list := findBooksByTitleAsc db,
            errors := errors,
            bookinstance := some bookinstance }], db)
  else
    match updateFault with
    | some f => ([ResAction.nextErr (JsError.storage f)], db)
    | none =>
      match findById db paramsId with
      | none => ([ResAction.crash msgUrlOnNull], db)
      | some old =>
        ([ResAction.redirect old.url],
         { db with bookinstances := replaceById db.bookinstances paramsId bookinstance })

/-- Example book used by the concrete witnesses. -/
def bookEx : Book :=
  { _id := "b1", title := "A Title" }

/-- Example stored book instance used by the concrete witnesses. -/
def instEx : BookInstance :=
  { _id := "i1", book := "b1", imprint := "First Imprint",
    status := "Available", due_back := none }

/-- Example store holding one book and one instance. -/
def dbEx : Db :=
  { bookinstances := [instEx], books := [bookEx] }

/-- Example empty store. -/
def dbEmpty : Db :=
  { bookinstances := [], books := [] }

/-- Example body whose book field is empty. -/
def bodyEmptyBook : RawBody :=
  { book := "", imprint := "First Imprint", status := "Available", due_back := "" }

/-- Example body passing every validator, with the due-back field omitted. -/
def bodyValid : RawBody :=
  { book := "b1", imprint := "First Imprint", status := "Available", due_back := "" }

/-- Example body whose due-back field is present but not a well-formed
date. -/
def bodyBadDate : RawBody :=
  { book := "b1", imprint := "First Imprint", status := "Available",
    due_back := "not-a-date" }

/-- Example identity matching no stored record. -/
def missingId : String := "nope"

/-- Example alternative status text used by the concrete witnesses. -/
def statusEx : String := "Maintenance"

/-- Helper: a nonempty list is not `isEmpty`. -/
theorem isEmpty_false_of_ne_nil {α : Type} {l : List α} (h : l ≠ []) :
    l.isEmpty = false := by
  cases l with
  | nil => exact absurd rfl h
  | cons a t => rfl

/-- Helper: a record found by identity carries that identity. -/
theorem findById_id_eq {db : Db} {id : String} {bi : BookInstance}
    (h : findById db id = some bi) : bi._id = id := by
  unfold findById at h
  have hp := List.find?_some h
  simp only [beq_iff_eq] at hp
  exact hp

/-- Helper: a nonempty string has length at least one. -/
theorem one_le_length_of_ne_empty {s : String} (h : s ≠ "") : 1 ≤ s.length := by
  cases s with
  | mk data =>
    cases data with
    | nil => exact absurd rfl h
    | cons c cs => simp [String.length]

/-- Helper: replacing the record at an identity by a record carrying the same
identity leaves the list of stored identities unchanged. -/
theorem replaceById_map_id (l : List BookInstance) (id : String) (r : BookInstance)
    (hr : r._id = id) :
    (replaceById l id r).map BookInstance._id = l.map BookInstance._id := by
  unfold replaceById
  rw [List.map_map]
  apply List.map_congr_left
  intro bi _
  by_cases hbi : (bi._id == id) = true
  · simp [Function.comp, hbi, hr, eq_of_beq hbi]
  · simp [Function.comp, hbi]

/-- C1: a create or update submission whose book field or imprint field is
empty yields a nonempty validation error list, re-renders the form view with
those errors, and leaves the store untouched (no save and no update). -/
theorem empty_book_or_imprint_rerenders_form_and_never_persists
    (db : Db) (b : RawBody) (freshId paramsId : String)
    (sf uf : Option StorageFault)
    (hEmpty : b.book = "" ∨ b.imprint = "") :
    validationErrors b ≠ [] ∧
    bookinstance_create_post db b freshId none sf =
      ([ResAction.render viewForm
          { title := titleCreate, book_list := findBooksByTitleAsc db,
            errors := validationErrors b,
            bookinstance := some (mkBookInstance freshId b) }], db) ∧
    bookinstance_update_post db b paramsId none uf =
      ([ResAction.render viewForm
          { title := titleCreate, book_list := findBooksByTitleAsc db,
            errors := validationErrors b,
            bookinstance := some (mkBookInstance paramsId b) }], db) := by
  have hne : validationErrors b ≠ [] := by
    rcases hEmpty with h | h
    · simp [validationErrors, h]
    · simp [validationErrors, h]
  refine ⟨hne, ?_, ?_⟩ <;>
    simp [bookinstance_create_post, bookinstance_update_post,
      isEmpty_false_of_ne_nil hne]

/-- Witness for C1 at a concrete submission with an empty book field. -/
theorem empty_book_or_imprint_rerenders_form_and_never_persists_witness :
    validationErrors bodyEmptyBook ≠ [] ∧
    bookinstance_create_post dbEx bodyEmptyBook missingId none none =
      ([ResAction.render viewForm
          { title := titleCreate, book_list := findBooksByTitleAsc dbEx,
            errors := validationErrors bodyEmptyBook,
            bookinstance := some (mkBookInstance missingId bodyEmptyBook) }], dbEx) ∧
    bookinstance_update_post dbEx bodyEmptyBook instEx._id none none =
      ([ResAction.render viewForm
          { title := titleCreate, book_list := findBooksByTitleAsc dbEx,
            errors := validationErrors bodyEmptyBook,
            bookinstance := some (mkBookInstance instEx._id bodyEmptyBook) }], dbEx) :=
  empty_book_or_imprint_rerenders_form_and_never_persists dbEx bodyEmptyBook
    missingId instEx._id none none (Or.inl rfl)

/-- C5: a detail request or an update-form read whose path identity matches no
stored record passes the 404 not-found error to the `next` continuation and
renders no view. -/
theorem missing_record_detail_and_update_get_yield_404
    (db : Db) (id : String) (h : findById db id = none) :
    bookinstance_detail db id none = [ResAction.nextErr notFoundError] ∧
    bookinstance_update_get db id none none = [ResAction.nextErr notFoundError] ∧
    notFoundError = JsError.httpError msgNotFound (some 404) ∧
    (∀ v p, ResAction.render v p ∉ bookinstance_detail db id none) ∧
    (∀ v p, ResAction.render v p ∉ bookinstance_update_get db id none none) := by
  refine ⟨?_, ?_, rfl, ?_, ?_⟩ <;>
    simp [bookinstance_detail, bookinstance_update_get, h]

/-- Witness for C5 on the empty store. -/
theorem missing_record_detail_and_update_get_yield_404_witness :
    bookinstance_detail dbEmpty missingId none = [ResAction.nextErr notFoundError] ∧
    bookinstance_update_get dbEmpty missingId none none =
      [ResAction.nextErr notFoundError] ∧
    notFoundError = JsError.httpError msgNotFound (some 404) ∧
    (∀ v p, ResAction.render v p ∉ bookinstance_detail dbEmpty missingId none) ∧
    (∀ v p, ResAction.render v p ∉ bookinstance_update_get dbEmpty missingId none none) :=
  missing_record_detail_and_update_get_yield_404 dbEmpty missingId rfl

/-- C6: at a concrete delete-form read whose identity matches no stored
record, the handler issues the redirect to the book list and then still
performs the confirmation render (the source issues the redirect without
returning), so the render is not skipped in the absent case. -/
theorem delete_get_absent_redirects_then_still_renders :
    bookinstance_delete_get dbEmpty missingId none =
      [ResAction.redirect locBookList,
       ResAction.render viewDelete { title := titleDelete, bookinstance := none }] ∧
    ResAction.render viewDelete { title := titleDelete, bookinstance := none } ∈
      bookinstance_delete_get dbEmpty missingId none := by
  constructor
  · rfl
  · simp [bookinstance_delete_get, findById, dbEmpty]

/-- C7: on any storage fault, the list handler raises a ReferenceError (its
signature omits the `next` parameter) and passes nothing to the error
continuation. -/
theorem list_storage_fault_crashes_instead_of_forwarding
    (db : Db) (f : StorageFault) :
    bookinstance_list db (some f) = [ResAction.crash msgNextUndefined] ∧
    ∀ e : JsError, ResAction.nextErr e ∉ bookinstance_list db (some f) := by
  constructor
  · rfl
  · intro e h
    simp [bookinstance_list] at h

/-- C9: a delete submission whose identity matches no stored record reaches
`remove` on the null lookup result and raises a TypeError; no redirect and no
not-found outcome is produced and the store is untouched. -/
theorem delete_post_absent_record_crashes_on_null_remove
    (db : Db) (bid : String) (h : findById db bid = none) :
    bookinstance_delete_post db bid none none = ([ResAction.crash msgRemoveOnNull], db) ∧
    (∀ loc, ResAction.redirect loc ∉ (bookinstance_delete_post db bid none none).1) ∧
    (∀ e, ResAction.nextErr e ∉ (bookinstance_delete_post db bid none none).1) := by
  refine ⟨?_, ?_, ?_⟩ <;> simp [bookinstance_delete_post, h]

/-- Witness for C9 on the empty store. -/
theorem delete_post_absent_record_crashes_on_null_remove_witness :
    bookinstance_delete_post dbEmpty missingId none none =
      ([ResAction.crash msgRemoveOnNull], dbEmpty) ∧
    (∀ loc, ResAction.redirect loc ∉ (bookinstance_delete_post dbEmpty missingId none none).1) ∧
    (∀ e, ResAction.nextErr e ∉ (bookinstance_delete_post dbEmpty missingId none none).1) :=
  delete_post_absent_record_crashes_on_null_remove dbEmpty missingId rfl

/-- C4: a create submission that passes validation appends exactly one new
record, built field by field from the sanitized body with the minted
identity, and redirects to the location derived from that identity. -/
theorem valid_create_persists_one_record_and_redirects
    (db : Db) (b : RawBody) (freshId : String)
    (hval : validationErrors b = []) :
    bookinstance_create_post db b freshId none none =
      ([ResAction.redirect (instanceUrlOf freshId)],
       { db with bookinstances := db.bookinstances ++ [mkBookInstance freshId b] }) ∧
    mkBookInstance freshId b =
      { _id := freshId, book := sanitizeText b.book, imprint := sanitizeText b.imprint,
        status := sanitizeText b.status, due_back := toDate b.due_back } := by
  constructor
  · simp [bookinstance_create_post, hval, BookInstance.url, mkBookInstance]
  · rfl

/-- Witness for C4 at a concrete valid submission. -/
theorem valid_create_persists_one_record_and_redirects_witness :
    bookinstance_create_post dbEx bodyValid missingId none none =
      ([ResAction.redirect (instanceUrlOf missingId)],
       { dbEx with bookinstances := dbEx.bookinstances ++ [mkBookInstance missingId bodyValid] }) ∧
    mkBookInstance missingId bodyValid =
      { _id := missingId, book := sanitizeText bodyValid.book,
        imprint := sanitizeText bodyValid.imprint,
        status := sanitizeText bodyValid.status,
        due_back := toDate bodyValid.due_back } :=
  valid_create_persists_one_record_and_redirects dbEx bodyValid missingId (by decide)

/-- C3: an update submission that passes validation writes a record carrying
the identity taken from the path parameter, leaves the list of stored
identities unchanged (no new identity is minted), and redirects to the detail
location of that same identity. -/
theorem update_preserves_path_identity
    (db : Db) (b : RawBody) (paramsId : String) (old : BookInstance)
    (hval : validationErrors b = []) (hfound : findById db paramsId = some old) :
    (mkBookInstance paramsId b)._id = paramsId ∧
    bookinstance_update_post db b paramsId none none =
      ([ResAction.redirect (instanceUrlOf paramsId)],
       { db with bookinstances :=
           replaceById db.bookinstances paramsId (mkBookInstance paramsId b) }) ∧
    (bookinstance_update_post db b paramsId none none).2.bookinstances.map BookInstance._id =
      db.bookinstances.map BookInstance._id := by
  have hid : old._id = paramsId := findById_id_eq hfound
  have hmain : bookinstance_update_post db b paramsId none none =
      ([ResAction.redirect (instanceUrlOf paramsId)],
       { db with bookinstances :=
           replaceById db.bookinstances paramsId (mkBookInstance paramsId b) }) := by
    simp [bookinstance_update_post, hval, hfound, BookInstance.url, hid]
  refine ⟨rfl, hmain, ?_⟩
  rw [hmain]
  exact replaceById_map_id db.bookinstances paramsId (mkBookInstance paramsId b) rfl

/-- Witness for C3 at a concrete valid submission over the example store. -/
theorem update_preserves_path_identity_witness :
    (mkBookInstance instEx._id bodyValid)._id = instEx._id ∧
    bookinstance_update_post dbEx bodyValid instEx._id none none =
      ([ResAction.redirect (instanceUrlOf instEx._id)],
       { dbEx with bookinstances :=
           replaceById dbEx.bookinstances instEx._id (mkBookInstance instEx._id bodyValid) }) ∧
    (bookinstance_update_post dbEx bodyValid instEx._id none none).2.bookinstances.map BookInstance._id =
      dbEx.bookinstances.map BookInstance._id :=
  update_preserves_path_identity dbEx bodyValid instEx._id instEx (by decide) (by decide)

/-- C8: a delete submission whose identity matches a stored record removes
that record from the store and redirects to the detail location of the
record's related book. -/
theorem delete_post_existing_removes_and_redirects_to_book
    (db : Db) (bid : String) (bi : BookInstance) (bk : Book)
    (hfind : findById db bid = some bi) (hbook : bookById db bi.book = some bk) :
    bookinstance_delete_post db bid none none =
      ([ResAction.redirect (bookUrlOf bk._id)],
       { db with bookinstances := removeById db.bookinstances bi._id }) := by
  simp [bookinstance_delete_post, hfind, hbook, Book.url]

/-- Witness for C8 on the example store. -/
theorem delete_post_existing_removes_and_redirects_to_book_witness :
    bookinstance_delete_post dbEx instEx._id none none =
      ([ResAction.redirect (bookUrlOf bookEx._id)],
       { dbEx with bookinstances := removeById dbEx.bookinstances instEx._id }) :=
  delete_post_existing_removes_and_redirects_to_book dbEx instEx._id instEx bookEx
    (by decide) (by decide)

/-- C2: with the other required fields present, a due-back value that is
present and not a well-formed ISO-8601 calendar date makes the validation
fail with the invalid-date message and both submission handlers re-render the
form with it, while an absent (falsy) due-back value passes validation and
both handlers proceed to persist. -/
theorem invalid_due_back_rejected_absent_due_back_accepted
    (db : Db) (b : RawBody) (freshId paramsId : String)
    (hbook : b.book ≠ "") (himp : b.imprint ≠ "") :
    (b.due_back ≠ "" → isISO8601CalendarDate b.due_back = false →
      validationErrors b = [msgInvalidDate] ∧
      bookinstance_create_post db b freshId none none =
        ([ResAction.render viewForm
            { title := titleCreate, book_list := findBooksByTitleAsc db,
              errors := [msgInvalidDate],
              bookinstance := some (mkBookInstance freshId b) }], db) ∧
      bookinstance_update_post db b paramsId none none =
        ([ResAction.render viewForm
            { title := titleCreate, book_list := findBooksByTitleAsc db,
              errors := [msgInvalidDate],
              bookinstance := some (mkBookInstance paramsId b) }], db)) ∧
    (b.due_back = "" →
      validationErrors b = [] ∧
      bookinstance_create_post db b freshId none none =
        ([ResAction.redirect (instanceUrlOf freshId)],
         { db with bookinstances := db.bookinstances ++ [mkBookInstance freshId b] }) ∧
      (∀ old, findById db paramsId = some old →
        bookinstance_update_post db b paramsId none none =
          ([ResAction.redirect (instanceUrlOf paramsId)],
           { db with bookinstances :=
               replaceById db.bookinstances paramsId (mkBookInstance paramsId b) }))) := by
  have hb1 : 1 ≤ b.book.length := one_le_length_of_ne_empty hbook
  have hi1 : 1 ≤ b.imprint.length := one_le_length_of_ne_empty himp
  constructor
  · intro hdue hiso
    have hve : validationErrors b = [msgInvalidDate] := by
      simp [validationErrors, hb1, hi1, hdue, hiso]
    refine ⟨hve, ?_, ?_⟩ <;>
      simp [bookinstance_create_post, bookinstance_update_post, hve]
  · intro hdue
    have hve : validationErrors b = [] := by
      simp [validationErrors, hb1, hi1, hdue]
    refine ⟨hve, ?_, ?_⟩
    · simp [bookinstance_create_post, hve, BookInstance.url, mkBookInstance]
    · intro old hold
      have hid : old._id = paramsId := findById_id_eq hold
      simp [bookinstance_update_post, hve, hold, BookInstance.url, hid]

/-- Witness for C2 at a concrete malformed date and a concrete omitted
date. -/
theorem invalid_due_back_rejected_absent_due_back_accepted_witness :
    validationErrors bodyBadDate = [msgInvalidDate] ∧ validationErrors bodyValid = [] :=
  ⟨((invalid_due_back_rejected_absent_due_back_accepted dbEx bodyBadDate missingId instEx._id
      (by decide) (by decide)).1 (by decide) (by decide)).1,
   ((invalid_due_back_rejected_absent_due_back_accepted dbEx bodyValid missingId instEx._id
      (by decide) (by decide)).2 rfl).1⟩

/-- C10: the status field is never validated (the error list does not depend
on it) and, on a submission that passes validation, the persisted record
carries exactly the trimmed and escaped submitted status, for both the create
and the update flow. -/
theorem status_never_validated_and_persisted_escaped_trimmed
    (db : Db) (b : RawBody) (s freshId paramsId : String) :
    validationErrors { b with status := s } = validationErrors b ∧
    (mkBookInstance freshId b).status = escapeHtml b.status.trim ∧
    (validationErrors b = [] →
      (bookinstance_create_post db b freshId none none).2.bookinstances =
        db.bookinstances ++ [mkBookInstance freshId b] ∧
      (∀ old, findById db paramsId = some old →
        (bookinstance_update_post db b paramsId none none).2.bookinstances =
          replaceById db.bookinstances paramsId (mkBookInstance paramsId b))) := by
  refine ⟨rfl, rfl, ?_⟩
  intro hval
  constructor
  · simp [bookinstance_create_post, hval]
  · intro old hold
    simp [bookinstance_update_post, hval, hold]

/-- Witness for C10 at a concrete submission. -/
theorem status_never_validated_and_persisted_escaped_trimmed_witness :
    validationErrors { bodyValid with status := statusEx } = validationErrors bodyValid ∧
    (mkBookInstance missingId bodyValid).status = escapeHtml bodyValid.status.trim ∧
    (bookinstance_create_post dbEx bodyValid missingId none none).2.bookinstances =
      dbEx.bookinstances ++ [mkBookInstance missingId bodyValid] ∧
    (bookinstance_update_post dbEx bodyValid instEx._id none none).2.bookinstances =
      replaceById dbEx.bookinstances instEx._id (mkBookInstance instEx._id bodyValid) :=
  have h := status_never_validated_and_persisted_escaped_trimmed dbEx bodyValid statusEx
    missingId instEx._id
  ⟨h.1, h.2.1, (h.2.2 (by decide)).1, (h.2.2 (by decide)).2 instEx (by decide)⟩
